import Mathlib

/-!
Shallow embedding of the per-user tracking core of `src/hw2/bot.py`
(profile setup, water/food/workout logging, weather and food-catalog
clients).  Python floats are modelled as `ℚ`, Python ints as `ℤ`/`ℕ`,
fallible parses (`float(...)`, `int(...)` under `try/except ValueError`)
as `Option` oracles carrying the parse result, and the external HTTP
calls as oracle arguments describing the outcome of the call.  Handlers
are functions `BotState → input → BotState × Reply`, where `Reply`
enumerates the distinct `answer`/`edit_text` branches of the source.
-/

namespace Bot

/-! ### Python string built-ins, modelled on `List Char`

`String.trim`/`String.isPrefixOf`/`String.replace` from core do not
reduce definitionally, so the Python built-ins `str.strip()`,
`str.startswith` and `str.replace` are modelled structurally on the
character list of the string. -/

/-- Python `s.strip()` with no argument: drop whitespace from both ends. -/
def pyStrip (s : String) : String :=
  ⟨((s.data.dropWhile Char.isWhitespace).reverse.dropWhile Char.isWhitespace).reverse⟩

/-- Python `s.startswith(pre)`. -/
def pyStartsWith (s pre : String) : Bool :=
  pre.data.isPrefixOf s.data

/-- Left-to-right, non-overlapping replacement of every occurrence of
`pattern` by `repl`, as Python `str.replace` performs it.  `fuel` bounds
the recursion by the length of the target; the sole caller passes a
non-empty pattern, for which the fuel is never exhausted. -/
def pyReplaceAux (pattern repl : List Char) : Nat → List Char → List Char
  | _, [] => []
  | 0, l => l
  | fuel + 1, c :: rest =>
    if pattern.isPrefixOf (c :: rest) then
      repl ++ pyReplaceAux pattern repl fuel ((c :: rest).drop pattern.length)
    else
      c :: pyReplaceAux pattern repl fuel rest

/-- Python `s.replace(pattern, repl)` (replace all occurrences). -/
def pyReplace (s pattern repl : String) : String :=
  ⟨pyReplaceAux pattern.data repl.data s.data.length s.data⟩

/-- Python `Char.lower` for the characters appearing in this program:
ASCII via `Char.toLower`, plus the Cyrillic uppercase range А–Я and Ё. -/
def pyCharLower (c : Char) : Char :=
  if 0x410 ≤ c.toNat ∧ c.toNat ≤ 0x42F then Char.ofNat (c.toNat + 0x20)
  else if c.toNat = 0x401 then Char.ofNat 0x451
  else c.toLower

/-- Python `s.lower()`. -/
def pyLower (s : String) : String :=
  ⟨s.data.map pyCharLower⟩

/-! ### Weather client: `get_temperature` (bot.py lines 40–69) -/

/-- Shape of the weather-service JSON payload as `get_temperature` reads
it.  `main = none` models a payload in which the `"main"` key is absent
or falsy (`data.get("main")` fails the truthiness test); `main = some
none` models a truthy `"main"` object lacking the `"temp"` key (the
lookup `data["main"]["temp"]` raises `KeyError`, which the surrounding
`except` swallows); `main = some (some t)` models `main.temp = t`. -/
structure WeatherPayload where
  main : Option (Option ℚ)
deriving DecidableEq

/-- Outcome of the HTTP exchange performed by `get_temperature`:
either an exception (network error, bad JSON, or any error raised while
handling the response — the `except` block wraps the whole body), or a
response with a status code and a payload. -/
inductive WeatherOutcome where
  | exn
  | resp (status : Nat) (payload : WeatherPayload)
deriving DecidableEq

/-- Embedding of `get_temperature` (bot.py lines 40–69): non-200 status
returns 15.0; a missing/falsy `"main"` returns 15.0; the catch-all
`except` returns 20.0 — which is also where a `KeyError` from a truthy
`"main"` without `"temp"` lands; otherwise the `main.temp` value is
returned. -/
def get_temperature : WeatherOutcome → ℚ
  | .exn => 20
  | .resp status payload =>
    if status ≠ 200 then 15
    else
      match payload.main with
      | none => 15
      | some none => 20
      | some (some t) => t

/-! ### Catalog client: `get_food_candidates` (bot.py lines 71–134) -/

/-- A raw product record of the catalog response, restricted to the keys
`get_food_candidates` reads.  Calorie values are modelled as JSON
numbers (`ℚ`); a `none` field models an absent key. -/
structure RawProduct where
  energy_kcal_100g : Option ℚ
  energy_kcal : Option ℚ
  product_name : Option String
deriving DecidableEq

/-- Outcome of the catalog HTTP call: an exception before any record is
processed (so `results` stays empty), or a parsed product list. -/
inductive CatalogOutcome where
  | exn
  | resp (products : List RawProduct)

/-- A normalized `{name, calories}` record as accumulated in `results`. -/
structure Candidate where
  name : String
  calories : ℚ
deriving DecidableEq

/-- A `{name, calories, score}` record of the final candidate list. -/
structure ScoredCandidate where
  name : String
  calories : ℚ
  score : ℚ
deriving DecidableEq

/-- The normalization loop of `get_food_candidates`: calories from
`energy-kcal_100g`, falling back to `energy-kcal`; records lacking both
are skipped; the name is `prod.get("product_name", "").strip()` and
blank names are skipped. -/
def normalizeProducts (products : List RawProduct) : List Candidate :=
  products.filterMap fun prod =>
    match prod.energy_kcal_100g.orElse (fun _ => prod.energy_kcal) with
    | none => none
    | some cal =>
      let product_name := pyStrip (prod.product_name.getD "")
      if product_name = "" then none else some ⟨product_name, cal⟩

/-- Embedding of `get_food_candidates` (bot.py lines 71–134).  The
rapidfuzz call `process.extract(food_name, cleaned_results, ...)` is the
pluggable similarity resolver; it is passed in as `extract`, returning
`(choice, score)` pairs drawn from its input list (the index component
of rapidfuzz's triples is discarded by the source, too).  The final list
is sorted by descending score, stably, as `list.sort(key=..., reverse=True)`
does. -/
def get_food_candidates (outcome : CatalogOutcome)
    (extract : List Candidate → List (Candidate × ℚ)) : List ScoredCandidate :=
  let results := match outcome with
    | .exn => []
    | .resp products => normalizeProducts products
  if results.isEmpty then []
  else
    let cleaned_results := results
    let fuzzy_matches := extract cleaned_results
    let final_list := fuzzy_matches.map fun m =>
      ScoredCandidate.mk m.1.name m.1.calories m.2
    final_list.mergeSort fun a b => decide (b.score ≤ a.score)

/-! ### Data model: per-user record, FSM state and FSM data

The bot keeps one entry of the global `users` dict per user id and one
aiogram FSM context per user.  All handlers touch only the invoking
user's entry, so the model tracks a single user's `(users entry, FSM
state, FSM data)` triple; distinct users' triples evolve independently. -/

/-- One value of the global `users` dict (bot.py lines 230–245):
profile fields, goals, cumulative ledger fields and event logs.  Each
log entry is the logged amount; the `datetime.now()` timestamp paired
with it in the source is not modelled (no claim mentions wall-clock
values, only insertion order). -/
structure UserData where
  weight : ℚ
  height : ℚ
  age : ℤ
  activity : ℤ
  city : String
  temp : ℚ
  water_goal : ℚ
  calorie_goal : ℚ
  logged_water : ℚ
  logged_calories : ℚ
  burned_calories : ℚ
  water_logs : List ℚ
  food_logs : List ℚ
  workout_logs : List ℚ
deriving DecidableEq

/-- The aiogram FSM state: `none` set models a cleared state (`idle`),
the six `ProfileStates` and the three `FoodLogStates`. -/
inductive ConvState where
  | idle
  | pWeight
  | pHeight
  | pAge
  | pActivity
  | pCity
  | pCalGoal
  | fChoice
  | fManualCal
  | fGrams
deriving DecidableEq

/-- The aiogram FSM data dict, with the keys this program stores.
`candidates_dict` is the `{short-id ↦ candidate}` dict built by
`log_food_start`, modelled as an association list in insertion order. -/
structure FSMData where
  weight : Option ℚ := none
  height : Option ℚ := none
  age : Option ℤ := none
  activity : Option ℤ := none
  city : Option String := none
  food_name : Option String := none
  food_cal_per_100g : Option ℚ := none
  candidates_dict : List (String × ScoredCandidate) := []
deriving DecidableEq

/-- The whole per-user state: the `users` entry (absent until the first
profile commit), the FSM state and the FSM data. -/
structure BotState where
  user : Option UserData
  conv : ConvState
  fsm : FSMData
deriving DecidableEq

/-- The user-visible reaction of a handler invocation, one constructor
per distinct `answer`/`edit_text` site of the source.  `handlerError`
models an uncaught exception inside a handler (no reply is produced);
`notRouted` marks an event no handler fires for. -/
inductive Reply where
  | greeting
  | askWeight
  | askHeight
  | askAge
  | askActivity
  | askCity
  | askCalGoal
  | errWeight
  | errHeight
  | errAge
  | errActivity
  | errCalGoal
  | profileSaved
  | handlerError
  | needProfile
  | usageWater
  | errWaterNum
  | waterLogged
  | usageFood
  | notFoundEnterManual
  | foundChoose
  | enterManualCb
  | invalidChoice
  | chosenAskGrams
  | errManualCal
  | manualSavedAskGrams
  | errGrams
  | cantDetermine
  | foodLogged
  | usageWorkout
  | unsupportedType
  | errWorkoutNum
  | workoutLogged
  | progressReport
  | graphs
  | notRouted
deriving DecidableEq

/-! ### Python dict operations on the association-list model -/

/-- Python `d[k] = v`: overwrite in place if the key exists, else append. -/
def dictInsert (d : List (String × ScoredCandidate)) (k : String)
    (v : ScoredCandidate) : List (String × ScoredCandidate) :=
  if d.any (fun p => p.1 = k) then
    d.map fun p => if p.1 = k then (k, v) else p
  else d ++ [(k, v)]

/-- Python dict built by inserting the pairs left to right into `{}`. -/
def buildDict (pairs : List (String × ScoredCandidate)) :
    List (String × ScoredCandidate) :=
  pairs.foldl (fun d p => dictInsert d p.1 p.2) []

/-- Python `d.get(k)`. -/
def dictGet (d : List (String × ScoredCandidate)) (k : String) :
    Option ScoredCandidate :=
  (d.find? (fun p => p.1 = k)).map (·.2)

/-! ### Handlers

Each handler takes the oracle outcome of the Python parses and external
calls it performs: `float(text)` / `int(text)` under `try/except` become
`Option ℚ` / `Option ℤ` arguments (`none` = `ValueError`). -/

/-- Handler for `/start` (bot.py lines 136–141). -/
def cmd_start (s : BotState) : BotState × Reply :=
  (s, .greeting)

/-- Handler for `/set_profile` (bot.py lines 143–146): prompt for the
weight and enter `ProfileStates.weight`.  `set_state` does not clear
previously collected FSM data. -/
def set_profile (s : BotState) : BotState × Reply :=
  ({ s with conv := .pWeight }, .askWeight)

/-- Handler `process_weight` (bot.py lines 148–156).  `input` is the
outcome of `float(message.text)`. -/
def process_weight (s : BotState) (input : Option ℚ) : BotState × Reply :=
  match input with
  | some weight =>
    ({ s with conv := .pHeight, fsm := { s.fsm with weight := some weight } }, .askHeight)
  | none => (s, .errWeight)

/-- Handler `process_height` (bot.py lines 158–166). -/
def process_height (s : BotState) (input : Option ℚ) : BotState × Reply :=
  match input with
  | some height =>
    ({ s with conv := .pAge, fsm := { s.fsm with height := some height } }, .askAge)
  | none => (s, .errHeight)

/-- Handler `process_age` (bot.py lines 168–176).  `input` is the
outcome of `int(message.text)`. -/
def process_age (s : BotState) (input : Option ℤ) : BotState × Reply :=
  match input with
  | some age =>
    ({ s with conv := .pActivity, fsm := { s.fsm with age := some age } }, .askActivity)
  | none => (s, .errAge)

/-- Handler `process_activity` (bot.py lines 178–186). -/
def process_activity (s : BotState) (input : Option ℤ) : BotState × Reply :=
  match input with
  | some activity =>
    ({ s with conv := .pCity, fsm := { s.fsm with activity := some activity } }, .askCity)
  | none => (s, .errActivity)

/-- Handler `process_city` (bot.py lines 188–193): stores the text with
no validation whatsoever and advances. -/
def process_city (s : BotState) (text : String) : BotState × Reply :=
  ({ s with conv := .pCalGoal, fsm := { s.fsm with city := some text } }, .askCalGoal)

/-- Parse outcome of the calorie-goal input text: the stripped text is
the literal `"авто"`, or `float(...)` succeeds with value `v`, or the
parse raises `ValueError`. -/
inductive CalInput where
  | auto
  | manual (v : ℚ)
  | bad
deriving DecidableEq

/-- Handler `process_calorie_goal` (bot.py lines 195–253), the profile
commit.  `temp` is the value returned by `await get_temperature(city)`.
On unparsable non-`"авто"` input the state is retained.  On acceptance
the `users` entry is overwritten whole: goals recomputed, ledger fields
zeroed, logs emptied, and the FSM session cleared.  If a collected field
is missing from the FSM data the arithmetic raises `TypeError` before
any mutation (`handlerError`). -/
def process_calorie_goal (s : BotState) (input : CalInput) (temp : ℚ) :
    BotState × Reply :=
  match input with
  | .bad => (s, .errCalGoal)
  | _ =>
    match s.fsm.weight, s.fsm.height, s.fsm.age, s.fsm.activity, s.fsm.city with
    | some weight, some height, some age, some activity, some city =>
      let water_goal := weight * 30 + ((Int.fdiv activity 30 : ℤ) : ℚ) * 500 +
        (if temp > 25 then 500 else 0)
      let calorie_goal := match input with
        | .manual v => v
        | _ => 10 * weight + 6.25 * height - 5 * (age : ℚ) +
            ((Int.fdiv activity 30 : ℤ) : ℚ) * 200
      ({ user := some
          { weight := weight, height := height, age := age, activity := activity,
            city := city, temp := temp, water_goal := water_goal,
            calorie_goal := calorie_goal, logged_water := 0, logged_calories := 0,
            burned_calories := 0, water_logs := [], food_logs := [],
            workout_logs := [] },
         conv := .idle, fsm := {} }, .profileSaved)
    | _, _, _, _, _ => (s, .handlerError)

/-- Parse outcome of the `/log_water` command text after `split()`:
fewer than two parts, an unparsable amount, or a parsed amount.  The
source has no positivity check on the amount. -/
inductive WaterCmd where
  | noArg
  | badNum
  | amount (a : ℚ)
deriving DecidableEq

/-- Handler `log_water` (bot.py lines 255–278): requires a profile, adds
the parsed amount to `logged_water` and appends a water event.  Does not
touch the FSM session. -/
def log_water (s : BotState) (cmd : WaterCmd) : BotState × Reply :=
  match s.user with
  | none => (s, .needProfile)
  | some u =>
    match cmd with
    | .noArg => (s, .usageWater)
    | .badNum => (s, .errWaterNum)
    | .amount a =>
      let u' := { u with logged_water := u.logged_water + a,
                         water_logs := u.water_logs ++ [a] }
      ({ s with user := some u' }, .waterLogged)

/-- Handler `log_food_start` (bot.py lines 281–327).  `arg` is
`message.text.split(maxsplit=1)[1]` when present; `candidates` is the
awaited result of `get_food_candidates(food_name)`; `ids` are the fresh
`str(uuid.uuid4())[:8]` values drawn for the candidates, in order.  Zero
candidates route to manual calorie entry; otherwise `candidates_dict`
is built and the state becomes `waiting_for_product_choice`. -/
def log_food_start (s : BotState) (arg : Option String)
    (candidates : List ScoredCandidate) (ids : List String) : BotState × Reply :=
  match s.user with
  | none => (s, .needProfile)
  | some _ =>
    match arg with
    | none => (s, .usageFood)
    | some raw =>
      let food_name := pyStrip raw
      if candidates.isEmpty then
        let fsm' := { s.fsm with food_name := some food_name }
        ({ s with conv := .fManualCal, fsm := fsm' }, .notFoundEnterManual)
      else
        let candidates_dict := buildDict (ids.zip candidates)
        let fsm' := { s.fsm with candidates_dict := candidates_dict }
        ({ s with conv := .fChoice, fsm := fsm' }, .foundChoose)

/-- Handler `choose_food_callback` (bot.py lines 329–358), fired on a
button press while in `waiting_for_product_choice`.  `data` is the
callback payload.  The manual-entry button routes to manual input;
payloads not starting with `"choose_food_"` and ids missing from
`candidates_dict` are rejected with no state change; a known id stores
the chosen calories and name and advances to `waiting_for_grams`. -/
def choose_food_callback (s : BotState) (data : String) : BotState × Reply :=
  if data = "choose_food_manual" then
    ({ s with conv := .fManualCal }, .enterManualCb)
  else if ¬ (pyStartsWith data "choose_food_") then
    (s, .invalidChoice)
  else
    let candidate_id := pyReplace data "choose_food_" ""
    match dictGet s.fsm.candidates_dict candidate_id with
    | none => (s, .invalidChoice)
    | some chosen =>
      let fsm' := { s.fsm with food_cal_per_100g := some chosen.calories,
                               food_name := some chosen.name }
      ({ s with conv := .fGrams, fsm := fsm' }, .chosenAskGrams)

/-- Handler `set_manual_calories` (bot.py lines 360–372): accepts a
positive float only (`custom_cal <= 0` re-raises into the same error). -/
def set_manual_calories (s : BotState) (input : Option ℚ) : BotState × Reply :=
  match input with
  | none => (s, .errManualCal)
  | some custom_cal =>
    if custom_cal ≤ 0 then (s, .errManualCal)
    else
      let fsm' := { s.fsm with food_cal_per_100g := some custom_cal }
      ({ s with conv := .fGrams, fsm := fsm' }, .manualSavedAskGrams)

/-- Handler `log_food_grams` (bot.py lines 374–404): requires a profile
(clearing the session otherwise), accepts a positive float, then — if
the stored calories-per-100g is absent or non-positive — apologizes and
clears the session without logging; otherwise it logs
`cal_per_100g * grams / 100` and clears the session. -/
def log_food_grams (s : BotState) (input : Option ℚ) : BotState × Reply :=
  match s.user with
  | none => ({ s with conv := .idle, fsm := {} }, .needProfile)
  | some u =>
    match input with
    | none => (s, .errGrams)
    | some grams =>
      if grams ≤ 0 then (s, .errGrams)
      else
        match s.fsm.food_cal_per_100g with
        | none => ({ s with conv := .idle, fsm := {} }, .cantDetermine)
        | some cal_per_100g =>
          if cal_per_100g ≤ 0 then
            ({ s with conv := .idle, fsm := {} }, .cantDetermine)
          else
            let calories_consumed := cal_per_100g * grams / 100
            let u' := { u with logged_calories := u.logged_calories + calories_consumed,
                               food_logs := u.food_logs ++ [calories_consumed] }
            ({ user := some u', conv := .idle, fsm := {} }, .foodLogged)

/-- The per-minute kcal factor table of `log_workout` (bot.py lines
420–425): бег (run) = 10, ходьба (walk) = 4, силовая (strength) = 8,
велосипед (cycle) = 7; any other type is absent. -/
def factors (w : String) : Option ℚ :=
  if w = "бег" then some 10
  else if w = "ходьба" then some 4
  else if w = "силовая" then some 8
  else if w = "велосипед" then some 7
  else none

/-- Parse outcome of the `/log_workout` command text after `split()`:
`len(args) <= 2`, or a workout type plus the outcome of
`float(args[2])`. -/
inductive WorkoutCmd where
  | tooFewArgs
  | args (workout_type : String) (minutes : Option ℚ)
deriving DecidableEq

/-- Python float floor division `a // b`, i.e. `floor(a / b)`. -/
def ratFloorDiv (a b : ℚ) : ℚ :=
  ((Rat.floor (a / b) : ℤ) : ℚ)

/-- Handler `log_workout` (bot.py lines 406–451): requires a profile;
rejects types outside the factor table, then parses the minutes; burned
kcal is `factors.get(workout_type.lower(), 6) * minutes` (at this point
the type is one of the four lowercase table keys, so `.lower()` is the
identity and the default 6 is unreachable); adds the burned amount to
`burned_calories`, appends a workout event, and adds
`(minutes // 30) * 200` to `water_goal`. -/
def log_workout (s : BotState) (cmd : WorkoutCmd) : BotState × Reply :=
  match s.user with
  | none => (s, .needProfile)
  | some u =>
    match cmd with
    | .tooFewArgs => (s, .usageWorkout)
    | .args workout_type minutesOpt =>
      match factors workout_type with
      | none => (s, .unsupportedType)
      | some _ =>
        match minutesOpt with
        | none => (s, .errWorkoutNum)
        | some minutes =>
          let factor := (factors (pyLower workout_type)).getD 6
          let burned := factor * minutes
          let extra_water := ratFloorDiv minutes 30 * 200
          let u' := { u with burned_calories := u.burned_calories + burned,
                             workout_logs := u.workout_logs ++ [burned],
                             water_goal := u.water_goal + extra_water }
          ({ s with user := some u' }, .workoutLogged)

/-- Handler `check_progress` (bot.py lines 453–483): reads the entry and
reports; mutates nothing. -/
def check_progress (s : BotState) : BotState × Reply :=
  match s.user with
  | none => (s, .needProfile)
  | some _ => (s, .progressReport)

/-- Handler `show_graph` (bot.py lines 486–557): reads the logs and
draws charts; mutates nothing. -/
def show_graph (s : BotState) : BotState × Reply :=
  match s.user with
  | none => (s, .needProfile)
  | some _ => (s, .graphs)

/-! ### The dispatched machine

An `Op` is one handler invocation together with the oracle outcomes of
the parses and external calls it performs.  `step` routes an `Op` the
way the aiogram dispatcher routes an incoming update: the six
`ProfileStates.*` message handlers and the three `FoodLogStates.*`
handlers carry a state filter and only fire in their FSM state (an `Op`
arriving in another state is `notRouted`); the `Command(...)` handlers
carry no state filter.  Any realizable sequence of handler invocations
is a sequence of `Op`s, so invariants proved over all `Op` sequences
cover every run of the bot. -/
inductive Op where
  | start
  | setProfile
  | weightMsg (v : Option ℚ)
  | heightMsg (v : Option ℚ)
  | ageMsg (v : Option ℤ)
  | activityMsg (v : Option ℤ)
  | cityMsg (text : String)
  | calGoalMsg (inp : CalInput) (fetch : WeatherOutcome)
  | waterCmd (c : WaterCmd)
  | foodCmd (arg : Option String) (cands : List ScoredCandidate) (ids : List String)
  | foodChoiceCb (data : String)
  | manualCalMsg (v : Option ℚ)
  | gramsMsg (v : Option ℚ)
  | workoutCmd (c : WorkoutCmd)
  | progressCmd
  | graphCmd

/-- One dispatched handler invocation. -/
def step (s : BotState) (op : Op) : BotState × Reply :=
  match op with
  | .start => cmd_start s
  | .setProfile => set_profile s
  | .weightMsg v => if s.conv = .pWeight then process_weight s v else (s, .notRouted)
  | .heightMsg v => if s.conv = .pHeight then process_height s v else (s, .notRouted)
  | .ageMsg v => if s.conv = .pAge then process_age s v else (s, .notRouted)
  | .activityMsg v => if s.conv = .pActivity then process_activity s v else (s, .notRouted)
  | .cityMsg t => if s.conv = .pCity then process_city s t else (s, .notRouted)
  | .calGoalMsg inp fetch =>
    if s.conv = .pCalGoal then process_calorie_goal s inp (get_temperature fetch)
    else (s, .notRouted)
  | .waterCmd c => log_water s c
  | .foodCmd arg cands ids => log_food_start s arg cands ids
  | .foodChoiceCb d => if s.conv = .fChoice then choose_food_callback s d else (s, .notRouted)
  | .manualCalMsg v => if s.conv = .fManualCal then set_manual_calories s v else (s, .notRouted)
  | .gramsMsg v => if s.conv = .fGrams then log_food_grams s v else (s, .notRouted)
  | .workoutCmd c => log_workout s c
  | .progressCmd => check_progress s
  | .graphCmd => show_graph s

/-- The state at process start: no `users` entry, no FSM session. -/
def initState : BotState :=
  { user := none, conv := .idle, fsm := {} }

/-- Folding a sequence of dispatched invocations over a state. -/
def run (s : BotState) (ops : List Op) : BotState :=
  ops.foldl (fun s op => (step s op).1) s

/-! ### Example fixtures used by the concrete instances below -/

/-- The FSM state of a user who typed weight 70, height 175, age 25,
activity 60 and city "X" and is about to answer the calorie-goal
question. -/
def profState : BotState :=
  { user := none, conv := .pCalGoal,
    fsm := { weight := some 70, height := some 175, age := some 25,
             activity := some 60, city := some "X" } }

/-- The committed `users` entry of the scenario profile (70 kg, 175 cm,
25 years, 60 min, city "X") at 30 °C with the auto calorie goal. -/
def demoUser : UserData :=
  { weight := 70, height := 175, age := 25, activity := 60, city := "X",
    temp := 30, water_goal := 3600, calorie_goal := 2068.75, logged_water := 0,
    logged_calories := 0, burned_calories := 0, water_logs := [], food_logs := [],
    workout_logs := [] }

/-- The whole bot state right after that profile commit. -/
def demoState : BotState :=
  { user := some demoUser, conv := .idle, fsm := {} }

/-- The dispatched events of a complete profile setup for the scenario
profile, with the weather service reporting 30 °C. -/
def demoProfileOps : List Op :=
  [Op.setProfile, Op.weightMsg (some 70), Op.heightMsg (some 175),
   Op.ageMsg (some 25), Op.activityMsg (some 60), Op.cityMsg "X",
   Op.calGoalMsg CalInput.auto (WeatherOutcome.resp 200 ⟨some (some 30)⟩)]

/-- The profile setup followed by one `/log_water 100`. -/
def demoOps : List Op :=
  demoProfileOps ++ [Op.waterCmd (WaterCmd.amount 100)]

/-- The `users` entry after `demoOps`. -/
def demoWaterUser : UserData :=
  { demoUser with logged_water := 100, water_logs := [100] }

/-- A grams-entry session whose stored calorie density is the
realizable value 0 (e.g. a catalog record with `energy-kcal_100g = 0`). -/
def gramsZeroState : BotState :=
  { user := some demoUser, conv := ConvState.fGrams,
    fsm := { food_cal_per_100g := some 0 } }

/-- A fresh product-choice session with an empty candidate dict. -/
def choiceState : BotState :=
  { user := some demoUser, conv := ConvState.fChoice, fsm := {} }

/-- The `users` entry written by one accepted workout call with table
factor `f` and parsed minutes `m`. -/
def workoutUpdate (u : UserData) (f m : ℚ) : UserData :=
  { u with burned_calories := u.burned_calories + f * m,
           workout_logs := u.workout_logs ++ [f * m],
           water_goal := u.water_goal + ratFloorDiv m 30 * 200 }

/-- The identity-style resolver used for the C5 witness: every choice is
returned with score 90. -/
def wExtract (l : List Candidate) : List (Candidate × ℚ) :=
  l.map (fun c => (c, 90))

/-- The raw record used for the C5 witness. -/
def wProd : RawProduct :=
  { energy_kcal_100g := some 52, energy_kcal := none, product_name := some " Apple " }

/-- The cumulative fields of a `users` entry match the sums of its
event logs. -/
def ledgerSums (u : UserData) : Prop :=
  u.logged_water = u.water_logs.sum ∧ u.logged_calories = u.food_logs.sum ∧
    u.burned_calories = u.workout_logs.sum

/-- Every `/log_water` amount occurring in the sequence is positive.
The source itself never enforces this: `log_water` accepts any parsed
float. -/
def posWaterAmounts (ops : List Op) : Prop :=
  ∀ a, Op.waterCmd (WaterCmd.amount a) ∈ ops → 0 < a

/-! ### Bridge lemmas between the embedded operations and `⌊·⌋` -/

/-- The embedded float floor division is the `⌊·⌋` of the quotient. -/
lemma ratFloorDiv_eq_floor (a b : ℚ) : ratFloorDiv a b = ((⌊a / b⌋ : ℤ) : ℚ) :=
  rfl

/-- Integer floor division by 30 is the `⌊·⌋` of the rational quotient. -/
lemma intCast_fdiv_thirty (a : ℤ) :
    ((Int.fdiv a 30 : ℤ) : ℚ) = ((⌊(a : ℚ) / 30⌋ : ℤ) : ℚ) := by
  have h30 : (30 : ℚ) = ((30 : ℕ) : ℚ) := by norm_num
  rw [h30, Rat.floor_intCast_div_natCast, Int.fdiv_eq_ediv _ (by norm_num)]
  norm_cast

/-! ### C4: weather-client fallbacks -/

/-- C4 (amended): `get_temperature` is total (never raises to the
caller); a non-success status returns the 15.0 fallback, as does a 200
response whose payload has no (truthy) `main` object; an exception
returns 20.0, and so does a 200 response whose `main` object lacks the
`temp` key, because the `KeyError` raised by the lookup is swallowed by
the same `except` branch; a 200 response with `main.temp` present
returns that value. -/
theorem C4_weather_fallbacks :
    (∀ status payload, status ≠ 200 → get_temperature (.resp status payload) = 15) ∧
    get_temperature (.resp 200 ⟨none⟩) = 15 ∧
    get_temperature WeatherOutcome.exn = 20 ∧
    get_temperature (.resp 200 ⟨some none⟩) = 20 ∧
    (∀ t, get_temperature (.resp 200 ⟨some (some t)⟩) = t) := by
  refine ⟨?_, rfl, rfl, rfl, fun t => rfl⟩
  intro status payload h
  simp [get_temperature, h]

/-- Witness for C4 at the concrete status 404. -/
theorem C4_weather_fallbacks_witness :
    404 ≠ 200 ∧ get_temperature (.resp 404 ⟨none⟩) = 15 :=
  ⟨by decide, C4_weather_fallbacks.1 404 ⟨none⟩ (by decide)⟩

/-- C4 counterexample: a 200 response whose payload carries a truthy
`main` object without a `temp` field returns 20.0 — not the 15.0 that
the claim assigns to every response lacking the temperature field. -/
theorem C4_counterexample :
    get_temperature (.resp 200 ⟨some none⟩) = 20 ∧ (20 : ℚ) ≠ 15 :=
  ⟨rfl, by norm_num⟩

/-! ### C1: profile-commit goal formulas -/

/-- C1 (amended): at profile commit, for collected weight `w > 0`,
height `ht > 0`, age `a > 0`, activity minutes `m ≥ 0` and fetched
temperature `temp`, the committed water goal is
`w*30 + ⌊m/30⌋*500 + (500 if temp > 25 else 0)`, and when the auto
keyword was chosen the committed calorie goal is
`10*w + 6.25*ht − 5*a + ⌊m/30⌋*200`.  In particular the scenario
`(70, 175, 25, 60, 30 °C)` commits `waterGoalMl = 3600` (not the 4100
of the claim) and `calorieGoalKcal = 2068.75`. -/
theorem C1_profile_commit (s : BotState) (w ht : ℚ) (a m : ℤ) (city : String)
    (temp : ℚ) (inp : CalInput)
    (hw : 0 < w) (hht : 0 < ht) (ha : 0 < a) (hm : 0 ≤ m)
    (hfw : s.fsm.weight = some w) (hfh : s.fsm.height = some ht)
    (hfa : s.fsm.age = some a) (hfm : s.fsm.activity = some m)
    (hfc : s.fsm.city = some city) (hinp : inp ≠ CalInput.bad) :
    ∃ u, ((process_calorie_goal s inp temp).1).user = some u ∧
      u.water_goal = w * 30 + ((⌊(m : ℚ) / 30⌋ : ℤ) : ℚ) * 500 +
        (if temp > 25 then 500 else 0) ∧
      (inp = CalInput.auto →
        u.calorie_goal = 10 * w + 6.25 * ht - 5 * (a : ℚ) +
          ((⌊(m : ℚ) / 30⌋ : ℤ) : ℚ) * 200) := by
  cases inp with
  | bad => exact absurd rfl hinp
  | auto =>
    simp only [process_calorie_goal, hfw, hfh, hfa, hfm, hfc]
    exact ⟨_, rfl, by rw [← intCast_fdiv_thirty], fun _ => by rw [← intCast_fdiv_thirty]⟩
  | manual v =>
    simp only [process_calorie_goal, hfw, hfh, hfa, hfm, hfc]
    exact ⟨_, rfl, by rw [← intCast_fdiv_thirty], fun hc => by cases hc⟩

/-- Witness for C1 at the scenario profile: the theorem instantiated at
`(70, 175, 25, 60, "X", 30 °C, auto)` yields the committed goals 3600 mL
and 2068.75 kcal. -/
theorem C1_profile_commit_witness :
    ∃ u, ((process_calorie_goal profState CalInput.auto 30).1).user = some u ∧
      u.water_goal = 3600 ∧ u.calorie_goal = 2068.75 := by
  obtain ⟨u, hu, hwg, hcg⟩ :=
    C1_profile_commit profState 70 175 25 60 "X" 30 CalInput.auto
      (by norm_num) (by norm_num) (by norm_num) (by norm_num)
      rfl rfl rfl rfl rfl (by simp)
  refine ⟨u, hu, ?_, ?_⟩
  · rw [hwg]; norm_num
  · rw [hcg rfl]; norm_num

/-- C1 counterexample: the scenario `(w=70, h=175, a=25, m=60, t=30)`
commits a water goal of 70·30 + 2·500 + 500 = 3600 mL, not the 4100 mL
asserted by the claim (its arithmetic slip). -/
theorem C1_counterexample :
    (((process_calorie_goal profState CalInput.auto 30).1).user.map
      (fun u => u.water_goal)) = some 3600 ∧ (3600 : ℚ) ≠ 4100 := by
  have hfd : ((Int.fdiv 60 30 : ℤ) : ℚ) = 2 := by norm_num [show Int.fdiv 60 30 = 2 from by decide]
  constructor
  · simp only [process_calorie_goal, profState, Option.map_some]
    norm_num [hfd]
  · norm_num

/-! ### C6: profile-collection input validation -/

/-- C6 (amended): each `Collecting*` handler accepts its text input iff
the Python parse succeeds — `float(text)` for weight/height and
`int(text)` for age/activity, with no positivity or sign check — while
the city step stores any text unconditionally; on a parse failure the
state is retained, no field is written, no state advances and an error
message is emitted. -/
theorem C6_collect_validation :
    (∀ s, process_weight s none = (s, Reply.errWeight)) ∧
    (∀ s v, (process_weight s (some v)).1.conv = ConvState.pHeight ∧
      (process_weight s (some v)).1.fsm.weight = some v) ∧
    (∀ s, process_height s none = (s, Reply.errHeight)) ∧
    (∀ s v, (process_height s (some v)).1.conv = ConvState.pAge ∧
      (process_height s (some v)).1.fsm.height = some v) ∧
    (∀ s, process_age s none = (s, Reply.errAge)) ∧
    (∀ s v, (process_age s (some v)).1.conv = ConvState.pActivity ∧
      (process_age s (some v)).1.fsm.age = some v) ∧
    (∀ s, process_activity s none = (s, Reply.errActivity)) ∧
    (∀ s v, (process_activity s (some v)).1.conv = ConvState.pCity ∧
      (process_activity s (some v)).1.fsm.activity = some v) ∧
    (∀ s t, (process_city s t).1.conv = ConvState.pCalGoal ∧
      (process_city s t).1.fsm.city = some t) :=
  ⟨fun _ => rfl, fun _ _ => ⟨rfl, rfl⟩, fun _ => rfl, fun _ _ => ⟨rfl, rfl⟩,
   fun _ => rfl, fun _ _ => ⟨rfl, rfl⟩, fun _ => rfl, fun _ _ => ⟨rfl, rfl⟩,
   fun _ _ => ⟨rfl, rfl⟩⟩

/-- C6 counterexample: the input "-5" parses as the float −5, which is
not positive, yet `process_weight` accepts it — the field is written and
the state advances — contradicting the claim that weight is accepted
only as a positive float. -/
theorem C6_counterexample :
    (process_weight { user := none, conv := ConvState.pWeight, fsm := {} }
        (some (-5))).1.conv = ConvState.pHeight ∧
    (process_weight { user := none, conv := ConvState.pWeight, fsm := {} }
        (some (-5))).1.fsm.weight = some (-5) ∧
    ¬ (0 : ℚ) < -5 :=
  ⟨rfl, rfl, by norm_num⟩

/-! ### C10: missing or non-positive stored calorie density -/

/-- C10: in `waiting_for_grams`, when a valid (positive) grams input
arrives but the stored calories-per-100g is absent or non-positive, the
handler apologizes, clears the session, appends no food event and leaves
`logged_calories` (indeed the whole `users` entry) unchanged. -/
theorem C10_missing_cal_density (s : BotState) (u : UserData) (g : ℚ)
    (hu : s.user = some u) (hg : 0 < g)
    (hcal : s.fsm.food_cal_per_100g = none ∨
      ∃ c, s.fsm.food_cal_per_100g = some c ∧ c ≤ 0) :
    log_food_grams s (some g) =
      ({ s with conv := ConvState.idle, fsm := {} }, Reply.cantDetermine) := by
  simp only [log_food_grams, hu, if_neg (not_le.2 hg)]
  rcases hcal with hnone | ⟨c, hc, hcle⟩
  · rw [hnone]
  · rw [hc]
    simp only [if_pos hcle]

/-- Witness for C10: the zero-density session and the grams input 150. -/
theorem C10_missing_cal_density_witness :
    log_food_grams gramsZeroState (some 150) =
      ({ gramsZeroState with conv := ConvState.idle, fsm := {} },
       Reply.cantDetermine) :=
  C10_missing_cal_density gramsZeroState demoUser 150 rfl (by norm_num)
    (Or.inr ⟨0, rfl, le_refl 0⟩)

/-! ### C8: unknown food-choice selections are rejected unchanged -/

/-- C8: in `waiting_for_product_choice`, any callback payload other than
the manual-entry option whose id is not a key of `candidates_dict` —
including payloads without the `choose_food_` marker — is rejected with
the rejection message and the state is returned exactly as it was: the
session survives, the FSM data is untouched and `logged_calories` is
untouched. -/
theorem C8_invalid_selection (s : BotState) (data : String)
    (hmanual : data ≠ "choose_food_manual")
    (hmiss : pyStartsWith data "choose_food_" = false ∨
      dictGet s.fsm.candidates_dict (pyReplace data "choose_food_" "") = none) :
    choose_food_callback s data = (s, Reply.invalidChoice) := by
  rw [choose_food_callback, if_neg hmanual]
  rcases hmiss with hpre | hget
  · rw [if_pos]
    simp [hpre]
  · by_cases hp : pyStartsWith data "choose_food_"
    · rw [if_neg (by simp [hp])]
      simp only [hget]
    · rw [if_pos (by simp [hp])]

/-- Witness for C8: the payload "x" in that session. -/
theorem C8_invalid_selection_witness :
    choose_food_callback choiceState "x" = (choiceState, Reply.invalidChoice) := by
  refine C8_invalid_selection choiceState "x" (by simp) (Or.inl ?_)
  decide

/-! ### C2: workout logging -/

/-- The four factor-table keys are already lowercase, so Python's
`workout_type.lower()` is the identity on every accepted type. -/
lemma pyLower_factors_key (w : String) (f : ℚ) (hf : factors w = some f) :
    pyLower w = w := by
  unfold factors at hf
  split_ifs at hf with h1 h2 h3 h4
  · subst h1; decide
  · subst h2; decide
  · subst h3; decide
  · subst h4; decide

/-- Effect of one accepted `log_workout` call, in terms of the table
factor. -/
lemma log_workout_effect (s : BotState) (u : UserData) (wtype : String)
    (f m : ℚ) (hu : s.user = some u) (hf : factors wtype = some f) :
    (log_workout s (.args wtype (some m))).1 =
      { s with user := some (workoutUpdate u f m) } := by
  simp only [log_workout, hu, hf, pyLower_factors_key wtype f hf, Option.getD_some,
    workoutUpdate]

/-- C2 (amended): for each of the four supported workout types —
бег (run, 10), ходьба (walk, 4), силовая (strength, 8), велосипед
(cycle, 7) — and a parsed minutes value, `log_workout` adds
`factor * minutes` to `burnedCalories`, appends the workout event, and
adds `⌊minutes/30⌋ * 200` mL to `waterGoalMl`, additively on every call
(two 30-minute calls raise the goal by 400 mL, not capped); a type
outside the table — e.g. the claim's fifth type "other" — is rejected
with no mutation, so the `.get(..., 6)` default factor is unreachable. -/
theorem C2_workout :
    (∀ s u wtype f m, s.user = some u → factors wtype = some f →
      0 < m →
      ∃ u', ((log_workout s (.args wtype (some m))).1).user = some u' ∧
        u'.burned_calories = u.burned_calories + f * m ∧
        u'.workout_logs = u.workout_logs ++ [f * m] ∧
        u'.water_goal = u.water_goal + ((⌊m / 30⌋ : ℤ) : ℚ) * 200 ∧
        u'.logged_water = u.logged_water ∧
        u'.logged_calories = u.logged_calories ∧
        u'.water_logs = u.water_logs ∧ u'.food_logs = u.food_logs) ∧
    (∀ s u, s.user = some u →
      ∃ u2, ((log_workout ((log_workout s (.args "бег" (some 30))).1)
          (.args "бег" (some 30))).1).user = some u2 ∧
        u2.water_goal = u.water_goal + 400) := by
  constructor
  · intro s u wtype f m hu hf _
    rw [log_workout_effect s u wtype f m hu hf]
    exact ⟨workoutUpdate u f m, rfl, rfl, rfl, rfl, rfl, rfl, rfl, rfl⟩
  · intro s u hu
    have hfd : ratFloorDiv 30 30 * 200 = (200 : ℚ) := by
      rw [ratFloorDiv_eq_floor]
      norm_num
    rw [log_workout_effect s u "бег" 10 30 hu rfl]
    rw [log_workout_effect _ _ "бег" 10 30 rfl rfl]
    refine ⟨workoutUpdate (workoutUpdate u 10 30) 10 30, rfl, ?_⟩
    show (workoutUpdate u 10 30).water_goal + ratFloorDiv 30 30 * 200 =
      u.water_goal + 400
    show u.water_goal + ratFloorDiv 30 30 * 200 + ratFloorDiv 30 30 * 200 =
      u.water_goal + 400
    rw [hfd]
    ring

/-- Witness for C2: the scenario call `log_workout(бег, 45)` on the
committed demo profile burns 10·45 = 450 kcal and raises the water goal
by ⌊45/30⌋·200 = 200 mL. -/
theorem C2_workout_witness :
    ∃ u', ((log_workout demoState (.args "бег" (some 45))).1).user = some u' ∧
      u'.burned_calories = 450 ∧ u'.water_goal = 3800 := by
  obtain ⟨u', h1, h2, h3, h4, _⟩ :=
    C2_workout.1 demoState demoUser "бег" 10 45 rfl rfl (by norm_num)
  refine ⟨u', h1, ?_, ?_⟩
  · rw [h2]; show (demoUser.burned_calories + 10 * 45 : ℚ) = 450
    norm_num [demoUser]
  · rw [h4]; show (demoUser.water_goal + ((⌊(45 : ℚ) / 30⌋ : ℤ) : ℚ) * 200 : ℚ) = 3800
    norm_num [demoUser]

/-- C2 counterexample: the claim's fifth workout type "other" is
rejected by `log_workout` with no mutation — `burnedCalories` stays 0
instead of gaining the claimed 6·30 = 180 kcal. -/
theorem C2_counterexample :
    log_workout demoState (.args "other" (some 30)) =
      (demoState, Reply.unsupportedType) ∧
    demoState.user.map (fun u => u.burned_calories) = some 0 := by
  constructor
  · simp only [log_workout, demoState]
    rw [show factors "other" = none from by decide]
  · rfl

/-! ### C7: catalog-result routing of `/log_food` -/

/-- Folding fresh-keyed inserts over an accumulator just appends. -/
lemma foldl_dictInsert_fresh (pairs : List (String × ScoredCandidate)) :
    ∀ acc : List (String × ScoredCandidate),
      (acc.map Prod.fst ++ pairs.map Prod.fst).Nodup →
      pairs.foldl (fun d p => dictInsert d p.1 p.2) acc = acc ++ pairs := by
  induction pairs with
  | nil => intro acc _; simp
  | cons p ps ih =>
    intro acc hnd
    have hfresh : ¬ (acc.any (fun q => q.1 = p.1) = true) := by
      simp only [List.any_eq_true, decide_eq_true_eq]
      rintro ⟨q, hq, hqe⟩
      have hdisj := (List.nodup_append.1 hnd).2.2
      have h1 : p.1 ∈ acc.map Prod.fst := by
        rw [← hqe]
        exact List.mem_map_of_mem Prod.fst hq
      exact hdisj h1 (by simp)
    rw [List.foldl_cons]
    have hstep : dictInsert acc p.1 p.2 = acc ++ [p] := by
      unfold dictInsert
      rw [if_neg hfresh]
    rw [hstep, ih (acc ++ [p]) (by simpa using hnd), List.append_assoc]
    rfl

/-- A Python dict built from pairs with pairwise-distinct keys is the
pair list itself. -/
lemma buildDict_of_nodup (pairs : List (String × ScoredCandidate))
    (hnd : (pairs.map Prod.fst).Nodup) : buildDict pairs = pairs := by
  unfold buildDict
  rw [foldl_dictInsert_fresh pairs [] (by simpa using hnd)]
  rfl

/-- Every element of the right component of a zip of equal-length lists
is hit by some key. -/
lemma exists_key_of_mem_zip (ids : List String) (cands : List ScoredCandidate)
    (hlen : ids.length = cands.length) (c : ScoredCandidate) (hc : c ∈ cands) :
    ∃ id, (id, c) ∈ ids.zip cands := by
  obtain ⟨i, hi, rfl⟩ := List.mem_iff_getElem.1 hc
  have hid : i < ids.length := by omega
  have hiz : i < (ids.zip cands).length := by
    simp only [List.length_zip]
    omega
  refine ⟨ids[i], ?_⟩
  have hz := @List.getElem_zip _ _ ids cands i hiz
  rw [← hz]
  exact List.getElem_mem hiz

/-- C7: with a profile present and a query argument given, zero catalog
candidates route the session to manual-calorie entry (never to the
product-choice state), while one or more candidates populate
`candidates_dict` — each candidate stored under some short id — and
route the session to the product-choice state. -/
theorem C7_food_query_routing (s : BotState) (u : UserData) (arg : String)
    (cands : List ScoredCandidate) (ids : List String)
    (hu : s.user = some u) (hlen : ids.length = cands.length)
    (hnd : ids.Nodup) :
    (cands = [] →
      (log_food_start s (some arg) cands ids).1.conv = ConvState.fManualCal ∧
      (log_food_start s (some arg) cands ids).1.conv ≠ ConvState.fChoice) ∧
    (cands ≠ [] →
      (log_food_start s (some arg) cands ids).1.conv = ConvState.fChoice ∧
      ∀ c ∈ cands, ∃ id,
        (id, c) ∈ (log_food_start s (some arg) cands ids).1.fsm.candidates_dict) := by
  constructor
  · rintro rfl
    simp [log_food_start, hu]
  · intro hne
    have hfst : (ids.zip cands).map Prod.fst = ids :=
      List.map_fst_zip ids cands (by omega)
    have hdict : buildDict (ids.zip cands) = ids.zip cands :=
      buildDict_of_nodup _ (by rw [hfst]; exact hnd)
    have hie : cands.isEmpty = false := by
      cases cands with
      | nil => exact absurd rfl hne
      | cons a l => rfl
    constructor
    · simp [log_food_start, hu, hie]
    · intro c hc
      obtain ⟨id, hid⟩ := exists_key_of_mem_zip ids cands hlen c hc
      refine ⟨id, ?_⟩
      simp only [log_food_start, hu, hie, Bool.false_eq_true, if_false]
      simpa [hdict] using hid

/-- Witness for C7 with one concrete candidate and one fresh id. -/
theorem C7_food_query_routing_witness :
    (log_food_start demoState (some "apple")
      [{ name := "Apple", calories := 52, score := 90 }] ["ab12cd34"]).1.conv =
        ConvState.fChoice ∧
    ∃ id, (id, ({ name := "Apple", calories := 52, score := 90 } : ScoredCandidate)) ∈
      (log_food_start demoState (some "apple")
        [{ name := "Apple", calories := 52, score := 90 }] ["ab12cd34"]).1.fsm.candidates_dict := by
  have h := (C7_food_query_routing demoState demoUser "apple"
    [{ name := "Apple", calories := 52, score := 90 }] ["ab12cd34"]
    rfl rfl (by simp)).2 (by simp)
  exact ⟨h.1, h.2 _ (by simp)⟩

/-! ### C5: catalog-client error handling and normalization -/

/-- C5: the catalog search never propagates a transport error — an
exception yields the empty list — and every candidate it returns stems
from some raw record of the response whose calories are the primary
per-100g field when present, else the secondary field, and whose
stripped name is non-blank; hence every returned candidate carries a
non-blank name and a calorie value.  `extract` is the pluggable
similarity resolver (rapidfuzz `process.extract`), assumed only to
return choices drawn from its input list. -/
theorem C5_catalog_normalization (extract : List Candidate → List (Candidate × ℚ))
    (hextract : ∀ l p, p ∈ extract l → p.1 ∈ l) :
    get_food_candidates CatalogOutcome.exn extract = [] ∧
    (∀ products c, c ∈ get_food_candidates (CatalogOutcome.resp products) extract →
      c.name ≠ "" ∧
      ∃ prod ∈ products,
        prod.energy_kcal_100g.orElse (fun _ => prod.energy_kcal) = some c.calories ∧
        pyStrip (prod.product_name.getD "") = c.name) := by
  constructor
  · rfl
  · intro products c hc
    unfold get_food_candidates at hc
    by_cases he : (normalizeProducts products).isEmpty
    · simp only [he, if_true] at hc
      exact absurd hc (List.not_mem_nil c)
    · simp only [he, Bool.false_eq_true, if_false] at hc
      rw [List.mem_mergeSort, List.mem_map] at hc
      obtain ⟨m, hm, rfl⟩ := hc
      have hcand : m.1 ∈ normalizeProducts products := hextract _ m hm
      rw [normalizeProducts, List.mem_filterMap] at hcand
      obtain ⟨prod, hprod, hf⟩ := hcand
      rcases hor : prod.energy_kcal_100g.orElse (fun _ => prod.energy_kcal) with _ | cal
      · rw [hor] at hf
        exact absurd hf (by simp)
      · rw [hor] at hf
        simp only at hf
        by_cases hname : pyStrip (prod.product_name.getD "") = ""
        · rw [if_pos hname] at hf
          exact absurd hf (by simp)
        · rw [if_neg hname] at hf
          obtain ⟨hn, hcal⟩ : pyStrip (prod.product_name.getD "") = m.1.name ∧
              cal = m.1.calories := by
            have := Option.some.inj hf
            rw [← this]
            exact ⟨rfl, rfl⟩
          refine ⟨?_, prod, hprod, ?_, hn⟩
          · show m.1.name ≠ ""
            rw [← hn]
            exact hname
          · show prod.energy_kcal_100g.orElse (fun _ => prod.energy_kcal) =
              some m.1.calories
            rw [hor, hcal]

/-- Witness for C5: the one-record response with name " Apple " and a
primary calorie field yields a candidate with the stripped non-blank
name and that calorie value. -/
theorem C5_catalog_normalization_witness :
    get_food_candidates CatalogOutcome.exn wExtract = [] ∧
    (({ name := "Apple", calories := 52, score := 90 } : ScoredCandidate).name ≠ "" ∧
     ∃ prod ∈ [wProd],
       prod.energy_kcal_100g.orElse (fun _ => prod.energy_kcal) =
         some ({ name := "Apple", calories := 52, score := 90 } : ScoredCandidate).calories ∧
       pyStrip (prod.product_name.getD "") =
         ({ name := "Apple", calories := 52, score := 90 } : ScoredCandidate).name) := by
  have hw : ∀ l p, p ∈ wExtract l → p.1 ∈ l := by
    intro l p hp
    rw [wExtract, List.mem_map] at hp
    obtain ⟨a, ha, rfl⟩ := hp
    exact ha
  have hstrip : pyStrip " Apple " = "Apple" := by decide
  have hnorm : normalizeProducts [wProd] = [{ name := "Apple", calories := 52 }] := by
    simp [normalizeProducts, wProd, hstrip]
  have hmem : ({ name := "Apple", calories := 52, score := 90 } : ScoredCandidate) ∈
      get_food_candidates (CatalogOutcome.resp [wProd]) wExtract := by
    simp only [get_food_candidates, hnorm]
    simp [wExtract, List.mem_mergeSort]
  exact ⟨(C5_catalog_normalization wExtract hw).1,
    (C5_catalog_normalization wExtract hw).2 [wProd] _ hmem⟩

/-! ### How each handler evolves the `users` entry -/

/-- `process_weight` never touches the `users` entry. -/
lemma process_weight_user (s : BotState) (v : Option ℚ) :
    ((process_weight s v).1).user = s.user := by
  cases v <;> rfl

/-- `process_height` never touches the `users` entry. -/
lemma process_height_user (s : BotState) (v : Option ℚ) :
    ((process_height s v).1).user = s.user := by
  cases v <;> rfl

/-- `process_age` never touches the `users` entry. -/
lemma process_age_user (s : BotState) (v : Option ℤ) :
    ((process_age s v).1).user = s.user := by
  cases v <;> rfl

/-- `process_activity` never touches the `users` entry. -/
lemma process_activity_user (s : BotState) (v : Option ℤ) :
    ((process_activity s v).1).user = s.user := by
  cases v <;> rfl

/-- `set_manual_calories` never touches the `users` entry. -/
lemma set_manual_calories_user (s : BotState) (v : Option ℚ) :
    ((set_manual_calories s v).1).user = s.user := by
  cases v with
  | none => rfl
  | some c =>
    unfold set_manual_calories
    split
    · rfl
    · split <;> rfl

/-- `choose_food_callback` never touches the `users` entry. -/
lemma choose_food_callback_user (s : BotState) (d : String) :
    ((choose_food_callback s d).1).user = s.user := by
  unfold choose_food_callback
  split_ifs <;> try rfl
  cases hd : dictGet s.fsm.candidates_dict (pyReplace d "choose_food_" "") <;>
    simp only [hd]

/-- `log_food_start` never touches the `users` entry. -/
lemma log_food_start_user (s : BotState) (arg : Option String)
    (cands : List ScoredCandidate) (ids : List String) :
    ((log_food_start s arg cands ids).1).user = s.user := by
  cases hs : s.user with
  | none => simp [log_food_start, hs]
  | some u =>
    cases arg with
    | none => simp [log_food_start, hs]
    | some raw =>
      by_cases hie : cands.isEmpty <;> simp [log_food_start, hs, hie]

/-- `log_water` leaves the entry alone or adds one water event whose
amount is also added to `logged_water`. -/
lemma log_water_user_cases (s : BotState) (c : WaterCmd) (u' : UserData)
    (h' : ((log_water s c).1).user = some u') :
    s.user = some u' ∨
    ∃ u a, s.user = some u ∧ c = WaterCmd.amount a ∧
      u' = { u with logged_water := u.logged_water + a,
                    water_logs := u.water_logs ++ [a] } := by
  obtain ⟨su, sconv, sfsm⟩ := s
  unfold log_water at h'
  cases su with
  | none => exact Or.inl h'
  | some u =>
    cases c with
    | noArg => exact Or.inl h'
    | badNum => exact Or.inl h'
    | amount a =>
      exact Or.inr ⟨u, a, rfl, rfl, (Option.some.inj h').symm⟩

/-- `log_food_grams` leaves the entry alone or adds one food event whose
kcal is also added to `logged_calories`. -/
lemma log_food_grams_user_cases (s : BotState) (v : Option ℚ) (u' : UserData)
    (h' : ((log_food_grams s v).1).user = some u') :
    s.user = some u' ∨
    ∃ u c, s.user = some u ∧
      u' = { u with logged_calories := u.logged_calories + c,
                    food_logs := u.food_logs ++ [c] } := by
  obtain ⟨su, sconv, sfsm⟩ := s
  cases su with
  | none => exact Or.inl h'
  | some u =>
    cases v with
    | none => exact Or.inl h'
    | some g =>
      by_cases hg : g ≤ 0
      · left
        simp only [log_food_grams, hg, if_true] at h'
        exact h'
      · cases hc : sfsm.food_cal_per_100g with
        | none =>
          left
          simp only [log_food_grams, hg, if_false, hc] at h'
          exact h'
        | some cal =>
          by_cases hcal : cal ≤ 0
          · left
            simp only [log_food_grams, hg, if_false, hc, hcal, if_true] at h'
            exact h'
          · right
            simp only [log_food_grams, hg, hcal, if_false, hc] at h'
            exact ⟨u, cal * g / 100, rfl, (Option.some.inj h').symm⟩

/-- `log_workout` leaves the entry alone or adds one workout event whose
kcal is also added to `burned_calories`, plus some water-goal bonus. -/
lemma log_workout_user_cases (s : BotState) (c : WorkoutCmd) (u' : UserData)
    (h' : ((log_workout s c).1).user = some u') :
    s.user = some u' ∨
    ∃ u b w, s.user = some u ∧
      u' = { u with burned_calories := u.burned_calories + b,
                    workout_logs := u.workout_logs ++ [b],
                    water_goal := u.water_goal + w } := by
  obtain ⟨su, sconv, sfsm⟩ := s
  cases su with
  | none => exact Or.inl h'
  | some u =>
    cases c with
    | tooFewArgs => exact Or.inl h'
    | args wtype mOpt =>
      cases hf : factors wtype with
      | none =>
        left
        simp only [log_workout, hf] at h'
        exact h'
      | some f =>
        cases mOpt with
        | none =>
          left
          simp only [log_workout, hf] at h'
          exact h'
        | some m =>
          simp only [log_workout, hf] at h'
          refine Or.inr ⟨u, (factors (pyLower wtype)).getD 6 * m,
            ratFloorDiv m 30 * 200, rfl, ?_⟩
          exact (Option.some.inj h').symm

/-- `process_calorie_goal` leaves the entry alone or replaces it whole
by a fresh zeroed ledger. -/
lemma process_calorie_goal_user_cases (s : BotState) (inp : CalInput) (t : ℚ)
    (u' : UserData) (h' : ((process_calorie_goal s inp t).1).user = some u') :
    s.user = some u' ∨
    (u'.logged_water = 0 ∧ u'.logged_calories = 0 ∧ u'.burned_calories = 0 ∧
     u'.water_logs = [] ∧ u'.food_logs = [] ∧ u'.workout_logs = []) := by
  unfold process_calorie_goal at h'
  split at h'
  · exact Or.inl h'
  · split at h'
    · right
      obtain rfl := (Option.some.inj h').symm
      exact ⟨rfl, rfl, rfl, rfl, rfl, rfl⟩
    · exact Or.inl h'

/-- Master per-step lemma: one dispatched invocation leaves the `users`
entry untouched, appends exactly one event along with its cumulative
field (linking a water event to the amount of the triggering
`/log_water`), or replaces the entry by the fresh ledger of a profile
commit. -/
lemma step_user_cases (s : BotState) (op : Op) (u' : UserData)
    (h' : ((step s op).1).user = some u') :
    s.user = some u' ∨
    (∃ u a, s.user = some u ∧ op = Op.waterCmd (WaterCmd.amount a) ∧
      u' = { u with logged_water := u.logged_water + a,
                    water_logs := u.water_logs ++ [a] }) ∨
    (∃ u c, s.user = some u ∧
      u' = { u with logged_calories := u.logged_calories + c,
                    food_logs := u.food_logs ++ [c] }) ∨
    (∃ u b w, s.user = some u ∧
      u' = { u with burned_calories := u.burned_calories + b,
                    workout_logs := u.workout_logs ++ [b],
                    water_goal := u.water_goal + w }) ∨
    ((∃ inp fetch, op = Op.calGoalMsg inp fetch) ∧ u'.logged_water = 0 ∧
      u'.logged_calories = 0 ∧ u'.burned_calories = 0 ∧ u'.water_logs = [] ∧
      u'.food_logs = [] ∧ u'.workout_logs = []) := by
  cases op with
  | start => exact Or.inl h'
  | setProfile => exact Or.inl h'
  | weightMsg v =>
    left
    simp only [step] at h'
    split at h'
    · rw [process_weight_user] at h'
      exact h'
    · exact h'
  | heightMsg v =>
    left
    simp only [step] at h'
    split at h'
    · rw [process_height_user] at h'
      exact h'
    · exact h'
  | ageMsg v =>
    left
    simp only [step] at h'
    split at h'
    · rw [process_age_user] at h'
      exact h'
    · exact h'
  | activityMsg v =>
    left
    simp only [step] at h'
    split at h'
    · rw [process_activity_user] at h'
      exact h'
    · exact h'
  | cityMsg t =>
    left
    simp only [step] at h'
    split at h' <;> exact h'
  | calGoalMsg inp fetch =>
    simp only [step] at h'
    split at h'
    · rcases process_calorie_goal_user_cases s inp (get_temperature fetch) u' h' with
        h0 | hfresh
      · exact Or.inl h0
      · exact Or.inr (Or.inr (Or.inr (Or.inr ⟨⟨inp, fetch, rfl⟩, hfresh⟩)))
    · exact Or.inl h'
  | waterCmd c =>
    rcases log_water_user_cases s c u' h' with h0 | ⟨u, a, hu, rfl, rfl⟩
    · exact Or.inl h0
    · exact Or.inr (Or.inl ⟨u, a, hu, rfl, rfl⟩)
  | foodCmd arg cands ids =>
    left
    simp only [step] at h'
    rw [log_food_start_user] at h'
    exact h'
  | foodChoiceCb d =>
    left
    simp only [step] at h'
    split at h' <;> [rw [choose_food_callback_user] at h'; skip] <;> exact h'
  | manualCalMsg v =>
    left
    simp only [step] at h'
    split at h' <;> [rw [set_manual_calories_user] at h'; skip] <;> exact h'
  | gramsMsg v =>
    simp only [step] at h'
    split at h'
    · rcases log_food_grams_user_cases s v u' h' with h0 | ⟨u, c, hu, rfl⟩
      · exact Or.inl h0
      · exact Or.inr (Or.inr (Or.inl ⟨u, c, hu, rfl⟩))
    · exact Or.inl h'
  | workoutCmd c =>
    rcases log_workout_user_cases s c u' h' with h0 | ⟨u, b, w, hu, rfl⟩
    · exact Or.inl h0
    · exact Or.inr (Or.inr (Or.inr (Or.inl ⟨u, b, w, hu, rfl⟩)))
  | progressCmd =>
    left
    obtain ⟨su, sconv, sfsm⟩ := s
    simp only [step, check_progress] at h'
    cases su with
    | none => exact h'
    | some u => exact h'
  | graphCmd =>
    left
    obtain ⟨su, sconv, sfsm⟩ := s
    simp only [step, show_graph] at h'
    cases su with
    | none => exact h'
    | some u => exact h'

/-! ### C3: cumulative fields equal the sums of the event logs -/

/-- One dispatched invocation preserves the sums invariant. -/
lemma step_preserves_ledgerSums (s : BotState) (op : Op)
    (h : ∀ u, s.user = some u → ledgerSums u) :
    ∀ u', ((step s op).1).user = some u' → ledgerSums u' := by
  intro u' h'
  rcases step_user_cases s op u' h' with
    h0 | ⟨u, a, hu, _, rfl⟩ | ⟨u, c, hu, rfl⟩ | ⟨u, b, w, hu, rfl⟩ |
    ⟨_, h1, h2, h3, h4, h5, h6⟩
  · exact h u' h0
  · obtain ⟨hw, hf, hb⟩ := h u hu
    refine ⟨?_, hf, hb⟩
    show u.logged_water + a = (u.water_logs ++ [a]).sum
    simp [hw, List.sum_append]
  · obtain ⟨hw, hf, hb⟩ := h u hu
    refine ⟨hw, ?_, hb⟩
    show u.logged_calories + c = (u.food_logs ++ [c]).sum
    simp [hf, List.sum_append]
  · obtain ⟨hw, hf, hb⟩ := h u hu
    refine ⟨hw, hf, ?_⟩
    show u.burned_calories + b = (u.workout_logs ++ [b]).sum
    simp [hb, List.sum_append]
  · rw [ledgerSums, h1, h2, h3, h4, h5, h6]
    simp

/-- The sums invariant is preserved along any run. -/
lemma run_preserves_ledgerSums (ops : List Op) (s : BotState)
    (h : ∀ u, s.user = some u → ledgerSums u) :
    ∀ u, (run s ops).user = some u → ledgerSums u := by
  induction ops generalizing s with
  | nil => exact h
  | cons op ops ih => exact ih _ (step_preserves_ledgerSums s op h)

/-- C3: starting from process start, after every sequence of dispatched
operations the cumulative fields of the (possibly present) `users` entry
equal the sums of their event logs; moreover each single step either
extends every event log as a prefix (append-only) or is a profile commit
installing fresh empty logs. -/
theorem C3_ledger_invariant :
    (∀ ops u, (run initState ops).user = some u → ledgerSums u) ∧
    (∀ s op u u', s.user = some u → ((step s op).1).user = some u' →
      (u.water_logs <+: u'.water_logs ∧ u.food_logs <+: u'.food_logs ∧
       u.workout_logs <+: u'.workout_logs) ∨
      ((∃ inp fetch, op = Op.calGoalMsg inp fetch) ∧ u'.water_logs = [] ∧
       u'.food_logs = [] ∧ u'.workout_logs = [])) := by
  constructor
  · intro ops u hu
    refine run_preserves_ledgerSums ops initState ?_ u hu
    intro u0 h0
    exact Option.noConfusion h0
  · intro s op u u' hu h'
    rcases step_user_cases s op u' h' with
      h0 | ⟨u0, a, hu0, _, rfl⟩ | ⟨u0, c, hu0, rfl⟩ | ⟨u0, b, w, hu0, rfl⟩ |
      ⟨hop, _, _, _, h4, h5, h6⟩
    · left
      rw [hu] at h0
      obtain rfl := Option.some.inj h0
      exact ⟨List.prefix_refl _, List.prefix_refl _, List.prefix_refl _⟩
    · left
      rw [hu] at hu0
      obtain rfl := (Option.some.inj hu0).symm
      exact ⟨List.prefix_append _ _, List.prefix_refl _, List.prefix_refl _⟩
    · left
      rw [hu] at hu0
      obtain rfl := (Option.some.inj hu0).symm
      exact ⟨List.prefix_refl _, List.prefix_append _ _, List.prefix_refl _⟩
    · left
      rw [hu] at hu0
      obtain rfl := (Option.some.inj hu0).symm
      exact ⟨List.prefix_refl _, List.prefix_refl _, List.prefix_append _ _⟩
    · exact Or.inr ⟨hop, h4, h5, h6⟩

/-- Appending one more dispatched event steps the folded state once. -/
lemma run_append_one (s : BotState) (l : List Op) (op : Op) :
    run s (l ++ [op]) = (step (run s l) op).1 := by
  rw [run, run, List.foldl_append]
  rfl

/-- Running the demo profile setup commits exactly the scenario entry. -/
lemma demo_profile_run : run initState demoProfileOps = demoState := by
  norm_num [run, demoProfileOps, List.foldl, step, cmd_start, set_profile,
    process_weight, process_height, process_age, process_activity, process_city,
    process_calorie_goal, get_temperature, initState, demoState, demoUser,
    show Int.fdiv 60 30 = 2 from by decide, show (25 : ℚ) < 30 from by norm_num]

/-- Running the demo operations ends with the single 100 mL water event. -/
lemma demo_run :
    run initState demoOps =
      { user := some demoWaterUser, conv := ConvState.idle, fsm := {} } := by
  rw [demoOps, run_append_one, demo_profile_run]
  norm_num [step, log_water, demoState, demoUser, demoWaterUser]

/-- Witness for C3: after the demo setup plus one `/log_water 100` the
entry satisfies the sums invariant. -/
theorem C3_ledger_invariant_witness :
    (run initState demoOps).user = some demoWaterUser ∧ ledgerSums demoWaterUser := by
  have hrun : (run initState demoOps).user = some demoWaterUser := by
    rw [demo_run]
  exact ⟨hrun, C3_ledger_invariant.1 demoOps demoWaterUser hrun⟩

/-! ### C9: `logged_water` growth and reset -/

/-- One step with a positive water amount keeps `logged_water`
non-negative. -/
lemma step_preserves_water_nonneg (s : BotState) (op : Op)
    (hpos : ∀ a, op = Op.waterCmd (WaterCmd.amount a) → 0 < a)
    (h : ∀ u, s.user = some u → 0 ≤ u.logged_water) :
    ∀ u', ((step s op).1).user = some u' → 0 ≤ u'.logged_water := by
  intro u' h'
  rcases step_user_cases s op u' h' with
    h0 | ⟨u, a, hu, hop, rfl⟩ | ⟨u, c, hu, rfl⟩ | ⟨u, b, w, hu, rfl⟩ |
    ⟨_, h1, _, _, _, _, _⟩
  · exact h u' h0
  · have ha := hpos a hop
    have hw := h u hu
    show 0 ≤ u.logged_water + a
    linarith
  · exact h u hu
  · exact h u hu
  · rw [h1]

/-- Non-negativity of `logged_water` along any run of positive-amount
operations. -/
lemma run_preserves_water_nonneg (ops : List Op) (s : BotState)
    (hpos : posWaterAmounts ops)
    (h : ∀ u, s.user = some u → 0 ≤ u.logged_water) :
    ∀ u, (run s ops).user = some u → 0 ≤ u.logged_water := by
  induction ops generalizing s with
  | nil => exact h
  | cons op ops ih =>
    exact ih _ (fun a ha => hpos a (List.mem_cons_of_mem _ ha))
      (step_preserves_water_nonneg s op
        (fun a hop => hpos a (hop ▸ List.mem_cons_self _ _)) h)

/-- C9 (amended): `log_water` applies any parsed amount with no
positivity check; provided every logged amount is positive, one step
never decreases `logged_water` unless it is the profile-commit handler
resetting it to 0, and along every run from process start `logged_water`
stays non-negative. -/
theorem C9_water_monotonic :
    (∀ s op u u', s.user = some u → ((step s op).1).user = some u' →
      (∀ a, op = Op.waterCmd (WaterCmd.amount a) → 0 < a) →
      (u.logged_water ≤ u'.logged_water ∨
       (u'.logged_water = 0 ∧ ∃ inp fetch, op = Op.calGoalMsg inp fetch))) ∧
    (∀ ops, posWaterAmounts ops →
      ∀ u, (run initState ops).user = some u → 0 ≤ u.logged_water) := by
  constructor
  · intro s op u u' hu h' hpos
    rcases step_user_cases s op u' h' with
      h0 | ⟨u0, a, hu0, hop, rfl⟩ | ⟨u0, c, hu0, rfl⟩ | ⟨u0, b, w, hu0, rfl⟩ |
      ⟨hop, h1, _, _, _, _, _⟩
    · left
      rw [hu] at h0
      obtain rfl := Option.some.inj h0
      exact le_refl _
    · left
      rw [hu] at hu0
      obtain rfl := (Option.some.inj hu0).symm
      exact le_add_of_nonneg_right (hpos a hop).le
    · left
      rw [hu] at hu0
      obtain rfl := (Option.some.inj hu0).symm
      exact le_refl _
    · left
      rw [hu] at hu0
      obtain rfl := (Option.some.inj hu0).symm
      exact le_refl _
    · exact Or.inr ⟨h1, hop⟩
  · intro ops hpos u hu
    refine run_preserves_water_nonneg ops initState hpos ?_ u hu
    intro u0 h0
    exact Option.noConfusion h0

/-- Witness for C9: the demo sequence has only the positive amount 100
and ends with `logged_water = 100 ≥ 0`. -/
theorem C9_water_monotonic_witness :
    posWaterAmounts demoOps ∧ (run initState demoOps).user = some demoWaterUser ∧
      0 ≤ demoWaterUser.logged_water := by
  have hpos : posWaterAmounts demoOps := by
    intro a ha
    simp only [demoOps, demoProfileOps, List.mem_append, List.mem_cons,
      List.not_mem_nil, or_false] at ha
    rcases ha with (h | h | h | h | h | h | h) | h
    · exact absurd h (by simp)
    · exact absurd h (by simp)
    · exact absurd h (by simp)
    · exact absurd h (by simp)
    · exact absurd h (by simp)
    · exact absurd h (by simp)
    · exact absurd h (by simp)
    · simp only [Op.waterCmd.injEq, WaterCmd.amount.injEq] at h
      rw [h]
      norm_num
  have hrun : (run initState demoOps).user = some demoWaterUser := by
    rw [demo_run]
  exact ⟨hpos, hrun, C9_water_monotonic.2 demoOps hpos demoWaterUser hrun⟩

/-- C9 counterexample: `/log_water -100` right after the demo profile
setup is accepted — the claim's `amountMl > 0` requirement does not
exist in the code — and drives `logged_water` from 0 down to −100,
which is both a decrease and a negative value. -/
theorem C9_counterexample :
    ((run initState (demoProfileOps ++ [Op.waterCmd (WaterCmd.amount (-100))])).user.map
      (fun u => u.logged_water)) = some (-100) ∧ ¬ (0 : ℚ) ≤ -100 := by
  constructor
  · rw [run_append_one, demo_profile_run]
    norm_num [step, log_water, demoState, demoUser]
  · norm_num

end Bot
